import Mathlib

/-!
Shallow embedding of `src/app.py` (CareerCompass backend).

The module models the Python values the program manipulates (decoded JSON),
the exceptions the relevant statements can raise, and the three functions the
claims are about: `generate_ai_plan`, `create_pdf`, and the two Flask handlers
`generate` and `download_pdf`.  External collaborators (the HTTP library, the
JSON decoder, ReportLab) enter as function parameters or as outcome types;
everything written in `app.py` itself is translated statement by statement.
-/

namespace CareerCompass

/-- A Python value obtained by decoding JSON (the only values the program
passes around): `None`, booleans, numbers, strings, lists and dicts with
string keys.  Dict fields keep insertion order, as Python dicts do. -/
inductive Json where
  | null
  | bool (b : Bool)
  | num (n : Int)
  | str (s : String)
  | arr (xs : List Json)
  | obj (fields : List (String × Json))

/-- Python truthiness (`bool(x)`) for the values of `Json`: `None`, `False`,
zero, and empty strings/lists/dicts are falsy. -/
def pyTruthy : Json → Bool
  | .null => false
  | .bool b => b
  | .num n => n != 0
  | .str s => !s.isEmpty
  | .arr xs => !xs.isEmpty
  | .obj fs => !fs.isEmpty

/-- The exception classes the modelled statements can raise.
`requestException` stands for `requests.exceptions.RequestException` and its
subclasses (connection errors and `raise_for_status` on a non-2xx reply). -/
inductive PyErr where
  | requestException
  | jsonDecodeError
  | keyError
  | indexError
  | typeError
  | attributeError
deriving DecidableEq, Repr

mutual

/-- Python `repr()` for decoded-JSON values (used by `str()` on lists and
dicts).  String escaping inside `repr` is not reproduced; no theorem depends
on the composite branches. -/
def pyRepr : Json → String
  | .null => "None"
  | .bool true => "True"
  | .bool false => "False"
  | .num n => toString n
  | .str s => "\x27" ++ s ++ "\x27"
  | .arr xs => "[" ++ pyReprSeq xs ++ "]"
  | .obj fs => "\x7b" ++ pyReprFields fs ++ "\x7d"

/-- Comma-separated `repr`s of list elements. -/
def pyReprSeq : List Json → String
  | [] => ""
  | [x] => pyRepr x
  | x :: y :: xs => pyRepr x ++ ", " ++ pyReprSeq (y :: xs)

/-- Comma-separated `key: value` `repr`s of dict fields. -/
def pyReprFields : List (String × Json) → String
  | [] => ""
  | [(k, v)] => "\x27" ++ k ++ "\x27: " ++ pyRepr v
  | (k, v) :: f :: fs => "\x27" ++ k ++ "\x27: " ++ pyRepr v ++ ", " ++ pyReprFields (f :: fs)

end

/-- Python `str()` on decoded-JSON values, as used by f-string interpolation:
the identity on strings, `None`/`True`/`False`/decimal text on atoms, and
`repr`-style rendering on lists and dicts. -/
def pyStr : Json → String
  | .null => "None"
  | .bool true => "True"
  | .bool false => "False"
  | .num n => toString n
  | .str s => s
  | .arr xs => pyRepr (.arr xs)
  | .obj fs => pyRepr (.obj fs)

/-- Python subscript with a string key, `x[k]`: dict lookup (`KeyError` when
the key is absent); every other value raises `TypeError`. -/
def subscriptStr : Json → String → Except PyErr Json
  | .obj fs, k =>
    match fs.lookup k with
    | some v => .ok v
    | none => .error .keyError
  | _, _ => .error .typeError

/-- Python subscript with a non-negative integer index, `x[i]`: list indexing
(`IndexError` out of range); string indexing yields a one-character string;
a dict raises `KeyError` (our dicts only carry string keys, so an integer key
is never present); other values raise `TypeError`. -/
def subscriptNat : Json → Nat → Except PyErr Json
  | .arr xs, i =>
    match xs.get? i with
    | some v => .ok v
    | none => .error .indexError
  | .obj _, _ => .error .keyError
  | .str s, i =>
    match s.data.get? i with
    | some c => .ok (.str (String.mk [c]))
    | none => .error .indexError
  | _, _ => .error .typeError

/-- Python iteration, `for x in v`: lists yield their elements, strings their
characters, dicts their keys; other values raise `TypeError`. -/
def pyIter : Json → Except PyErr (List Json)
  | .arr xs => .ok xs
  | .str s => .ok (s.data.map (fun c => .str (String.mk [c])))
  | .obj fs => .ok (fs.map (fun p => .str p.1))
  | _ => .error .typeError

/-- Python `d.get(k)` (single-argument form, default `None`); raises
`AttributeError` on a non-dict receiver. -/
def pyGet1 : Json → String → Except PyErr Json
  | .obj fs, k => .ok ((fs.lookup k).getD .null)
  | _, _ => .error .attributeError

/-- Python `d.get(k, default)`; raises `AttributeError` on a non-dict
receiver. -/
def pyGetD : Json → String → Json → Except PyErr Json
  | .obj fs, k, d => .ok ((fs.lookup k).getD d)
  | _, _, _ => .error .attributeError

/-- Test charLead n h: whether the character list `n` is an initial
segment of `h`. -/
def charLead : List Char → List Char → Bool
  | [], _ => true
  | _ :: _, [] => false
  | a :: as, b :: bs => a == b && charLead as bs

/-- Test charSub n h: whether the character list `n` occurs contiguously
inside `h`. -/
def charSub (n : List Char) : List Char → Bool
  | [] => n.isEmpty
  | h :: t => charLead n (h :: t) || charSub n t

/-- Test strHasSub hay x: whether `x` occurs as a substring of `hay`
(Python `x in hay` on strings). -/
def strHasSub (hay x : String) : Bool := charSub x.data hay.data

/-- Python `k in v` for a string `k`: key membership on dicts, element
equality on lists (Python `==` between a string and a non-string is `False`),
substring test on strings, `TypeError` otherwise. -/
def pyInStr (k : String) : Json → Except PyErr Bool
  | .obj fs => .ok (fs.any (fun p => p.1 == k))
  | .arr xs => .ok (xs.any (fun j => match j with | .str s => s == k | _ => false))
  | .str s => .ok (strHasSub s k)
  | _ => .error .typeError

/-- Reading of `API_KEY = os.environ.get("PERPLEXITY_API_KEY")`, tested with
`if not API_KEY`: the variable being unset (`None`) or empty is falsy. -/
def apiKeyMissing : Option String → Bool
  | none => true
  | some s => s.isEmpty

/-- The constant system prompt of `generate_ai_plan` (whitespace reproduced
from the triple-quoted Python literal). -/
def system_prompt : String :=
  "\n    You are an expert career development coach. You always generate a response in a structured JSON format. The JSON object must have a single key \"weekly_plan\". The \"weekly_plan\" value should be an array of 8 objects, where each object represents a week. Each weekly object must have the following keys: \"week\", \"topic\", \"details\" (as a list of strings), and \"resources\" (as a list of strings). Do not include any introductory text or explanations outside of the JSON object itself.\n    "

/-- The literal segment of the user prompt before the interpolated goal. -/
def upSeg0 : String :=
  "\n    Create a detailed, structured, 8-week learning plan for a user with the following details:\n    - User\x27s Goal: Become a \""

/-- The literal segment between the goal and the skill level. -/
def upSeg1 : String := "\"\n    - Current Skill Level: "

/-- The literal segment between the skill level and the skills to learn. -/
def upSeg2 : String := "\n    - Specific Skills to Learn: "

/-- The literal segment between the skills to learn and the weekly hours. -/
def upSeg3 : String := "\n    - Available Study Time: "

/-- The literal segment after the weekly hours. -/
def upSeg4 : String := " hours per week\n    "

/-- The f-string `user_prompt` of `generate_ai_plan`: the four inputs are
interpolated via `str()` between the literal segments. -/
def user_prompt (goal skill_level skills_to_learn hours_per_week : Json) : String :=
  upSeg0 ++ pyStr goal ++ upSeg1 ++ pyStr skill_level ++ upSeg2 ++
    pyStr skills_to_learn ++ upSeg3 ++ pyStr hours_per_week ++ upSeg4

/-- The outbound HTTP request `generate_ai_plan` hands to `requests.post`:
URL, headers, and the JSON payload (model name and the two chat messages as
role/content pairs), with the 60-second timeout. -/
structure PostRequest where
  url : String
  authorization : String
  contentType : String
  model : String
  messages : List (String × String)
  timeout : Nat

/-- The request built by `generate_ai_plan` from the API key and the four
user inputs. -/
def mkRequest (key : String) (goal skill_level skills_to_learn hours_per_week : Json) :
    PostRequest where
  url := "https://api.perplexity.ai/chat/completions"
  authorization := "Bearer " ++ key
  contentType := "application/json"
  model := "llama-3-sonar-large-32k-online"
  messages := [("system", system_prompt),
               ("user", user_prompt goal skill_level skills_to_learn hours_per_week)]
  timeout := 60

/-- Outcome of `requests.post` followed by `raise_for_status()` and
`response.json()`: a connection-level failure, a non-2xx status (both raise
`RequestException` or a subclass of it), a body that is not valid JSON, or a
decoded response envelope. -/
inductive HttpOutcome where
  | netError
  | badStatus
  | badJson
  | ok (response_data : Json)

/-- The `try` block of `generate_ai_plan` after the request is built: the
HTTP call, the envelope navigation
`response_data["choices"][0]["message"]["content"]`, and
`json.loads(content_string)`.  `loads` is the external JSON decoder
(`none` = `json.JSONDecodeError`); `json.loads` on a non-string argument
raises `TypeError`. -/
def tryBlock (post : PostRequest → HttpOutcome) (loads : String → Option Json)
    (req : PostRequest) : Except PyErr Json :=
  match post req with
  | .netError => .error .requestException
  | .badStatus => .error .requestException
  | .badJson => .error .jsonDecodeError
  | .ok response_data => do
    let choices ← subscriptStr response_data "choices"
    let first ← subscriptNat choices 0
    let message ← subscriptStr first "message"
    let content ← subscriptStr message "content"
    match content with
    | .str content_string =>
      match loads content_string with
      | some plan_data => .ok plan_data
      | none => .error .jsonDecodeError
    | _ => .error .typeError

/-- The exception classes handled by the two `except` clauses of
`generate_ai_plan`: `requests.exceptions.RequestException`, and
`(json.JSONDecodeError, KeyError)`. -/
def isCaught : PyErr → Bool
  | .requestException => true
  | .jsonDecodeError => true
  | .keyError => true
  | _ => false

/-- Model of `generate_ai_plan(goal, skill_level, skills_to_learn, hours_per_week)`.
Returns the Python result (`.ok (some plan)` for a parsed plan,
`.ok none` for `return None`, `.error e` for an exception that escapes) paired
with the list of outbound HTTP requests actually performed. -/
def generate_ai_plan (apiKey : Option String) (post : PostRequest → HttpOutcome)
    (loads : String → Option Json)
    (goal skill_level skills_to_learn hours_per_week : Json) :
    Except PyErr (Option Json) × List PostRequest :=
  if apiKeyMissing apiKey then (.ok none, [])
  else
    let req := mkRequest (apiKey.getD "") goal skill_level skills_to_learn hours_per_week
    match tryBlock post loads req with
    | .ok plan_data => (.ok (some plan_data), [req])
    | .error e => if isCaught e then (.ok none, [req]) else (.error e, [req])

/-- The two-column week table built for one `WeekEntry`: the two constant
header cells and the two bulleted lists (one paragraph text per bullet).
ReportLab style commands (colours, grid, widths 250/250) are constant
configuration of the external layout engine and are not modelled. -/
structure WeekTable where
  headerLeft : String
  headerRight : String
  detailsCells : List String
  resourcesCells : List String
deriving DecidableEq, Repr

/-- A ReportLab flowable appended to the `story` by `create_pdf`. -/
inductive Flowable where
  | para (text : String) (style : String)
  | spacer (width : Nat) (height : Nat)
  | table (t : WeekTable)
deriving DecidableEq, Repr

/-- Whether a flowable is one of the week tables. -/
def Flowable.isTable : Flowable → Bool
  | .table _ => true
  | _ => false

/-- The fixed introductory sentence of `create_pdf`. -/
def intro_text : String :=
  "Here is your 8-week learning plan to achieve your goal. Stick to the schedule, and you\x27ll make great progress!"

/-- The story prefix `create_pdf` emits before any week: the title paragraph,
a spacer, the fixed introductory paragraph, and a spacer. -/
def introStory : List Flowable :=
  [.para "Your Personalized Career Compass Plan" "h1", .spacer 1 24,
   .para intro_text "BodyText", .spacer 1 24]

/-- The bullet built for one item of `details`/`resources`:
`f"• {item}"`. -/
def bullet (item : Json) : String := "• " ++ pyStr item

/-- The loop body of `create_pdf` for one element of `weekly_plan`: the
subheading `f"<b>{week_plan[week]}: {week_plan[topic]}</b>"`, a spacer, the
bulleted lists, the two-column table, and a trailing spacer.  Subscripts raise
exactly as the Python ones do, in source order (`week`, `topic`, `details`,
`resources`). -/
def processWeek (week_plan : Json) : Except PyErr (List Flowable) := do
  let week ← subscriptStr week_plan "week"
  let topic ← subscriptStr week_plan "topic"
  let week_title := Flowable.para ("<b>" ++ pyStr week ++ ": " ++ pyStr topic ++ "</b>") "h3"
  let detailsVal ← subscriptStr week_plan "details"
  let detailItems ← pyIter detailsVal
  let details_list := detailItems.map bullet
  let resourcesVal ← subscriptStr week_plan "resources"
  let resourceItems ← pyIter resourcesVal
  let resources_list := resourceItems.map bullet
  .ok [week_title, .spacer 1 12,
       .table ⟨"<b>Details</b>", "<b>Suggested Resources</b>", details_list, resources_list⟩,
       .spacer 1 24]

/-- The `for week_plan in ...` loop of `create_pdf`: flowables are appended
entry by entry; the first exception aborts the loop with nothing emitted. -/
def buildWeeks : List Json → Except PyErr (List Flowable)
  | [] => .ok []
  | e :: es => do
    let fl ← processWeek e
    let rest ← buildWeeks es
    .ok (fl ++ rest)

/-- Model of `create_pdf(plan_data)`: the story handed to `doc.build` — the title and
intro prefix followed by the per-week flowables over
`plan_data.get("weekly_plan", [])`.  The built byte buffer is the external
layout engine applied to this story; an escaping exception means no buffer is
returned. -/
def create_pdf (plan_data : Json) : Except PyErr (List Flowable) := do
  let weekly ← pyGetD plan_data "weekly_plan" (.arr [])
  let entries ← pyIter weekly
  let weekFlows ← buildWeeks entries
  .ok (introStory ++ weekFlows)

/-- A response of the `generate` endpoint: an HTTP status and the
`jsonify`-ed body. -/
structure HttpResp where
  status : Nat
  body : Json

/-- Body of `jsonify({"error": msg})`. -/
def errorBody (msg : String) : Json := .obj [("error", .str msg)]

/-- The generic 500 message of the `generate` endpoint. -/
def failMsg : String :=
  "Failed to generate plan from AI. The API may be down or the response was invalid."

/-- Lines 147–150 of the `generate` handler: the decision taken on the Plan
Client output `plan` — `if plan and "weekly_plan" in plan:` return the plan
with 200, else the generic error with 500.  The membership test can itself
raise (e.g. `TypeError` on a number), which escapes the handler. -/
def planDecision (plan : Option Json) : Except PyErr HttpResp :=
  match plan with
  | none => .ok ⟨500, errorBody failMsg⟩
  | some p =>
    if pyTruthy p then do
      let isIn ← pyInStr "weekly_plan" p
      if isIn then .ok ⟨200, p⟩ else .ok ⟨500, errorBody failMsg⟩
    else .ok ⟨500, errorBody failMsg⟩

/-- The body of the `generate` handler after the API-key and
`if not data` guards: the four `data.get(...)` reads, the
`if not all([...])` presence check, the Plan Client call, and the final
decision.  Paired with the list of outbound HTTP requests performed. -/
def generateBody (apiKey : Option String) (post : PostRequest → HttpOutcome)
    (loads : String → Option Json) (data : Json) :
    Except PyErr HttpResp × List PostRequest :=
  let fields : Except PyErr (Json × Json × Json × Json) := do
    let goal ← pyGet1 data "goal"
    let skill_level ← pyGet1 data "skillLevel"
    let skills_to_learn ← pyGet1 data "skills"
    let hours_per_week ← pyGet1 data "hours"
    .ok (goal, skill_level, skills_to_learn, hours_per_week)
  match fields with
  | .error e => (.error e, [])
  | .ok (goal, skill_level, skills_to_learn, hours_per_week) =>
    if pyTruthy goal && pyTruthy skill_level && pyTruthy skills_to_learn &&
        pyTruthy hours_per_week then
      let (planRes, calls) :=
        generate_ai_plan apiKey post loads goal skill_level skills_to_learn hours_per_week
      match planRes with
      | .error e => (.error e, calls)
      | .ok plan => (planDecision plan, calls)
    else
      (.ok ⟨400, errorBody "Missing required fields"⟩, [])

/-- The `/generate` endpoint.  `body` is `request.get_json()` (`none` when no
JSON body is available).  Order of the guards follows the source: missing API
key → 500; falsy body → 400 "Invalid input"; then `generateBody`. -/
def generate (apiKey : Option String) (post : PostRequest → HttpOutcome)
    (loads : String → Option Json) (body : Option Json) :
    Except PyErr HttpResp × List PostRequest :=
  if apiKeyMissing apiKey then
    (.ok ⟨500, errorBody "API key is not configured on the server."⟩, [])
  else
    match body with
    | none => (.ok ⟨400, errorBody "Invalid input"⟩, [])
    | some data =>
      if pyTruthy data then generateBody apiKey post loads data
      else (.ok ⟨400, errorBody "Invalid input"⟩, [])

/-- A response of the `/download_pdf` endpoint: the plain-text 400, or the
file response wrapping the built document with its MIME type and
`Content-Disposition` header. -/
inductive DlResp where
  | plain (bodyText : String) (status : Nat)
  | file (doc : List Flowable) (mimetype : String) (contentDisposition : String)
deriving DecidableEq, Repr

/-- The `/download_pdf` endpoint: falsy or missing JSON body → plain 400;
otherwise `create_pdf` (whose exceptions escape uncaught) wrapped in a
`Response` with the PDF MIME type and attachment header. -/
def download_pdf (plan_data : Option Json) : Except PyErr DlResp :=
  match plan_data with
  | none => .ok (.plain "Invalid data" 400)
  | some p =>
    if pyTruthy p then do
      let doc ← create_pdf p
      .ok (.file doc "application/pdf" "attachment;filename=Career_Compass_Plan.pdf")
    else .ok (.plain "Invalid data" 400)

/-! ## Helper notions and lemmas -/

/-- Whether `x` occurs verbatim (contiguously) inside `hay`. -/
def containsVerbatim (hay x : String) : Prop :=
  ∃ pre suf, hay.data = pre ++ x.data ++ suf

/-- The dictionary value of `"weekly_plan"` when it is an array: its length. -/
def weekly_len : Json → Option Nat
  | .obj fs =>
    match fs.lookup "weekly_plan" with
    | some (.arr xs) => some xs.length
    | _ => none
  | _ => none

@[simp]
theorem except_bind_err {α β : Type} (e : PyErr) (f : α → Except PyErr β) :
    (Except.error e >>= f) = (.error e : Except PyErr β) := rfl

@[simp]
theorem except_bind_ok {α β : Type} (a : α) (f : α → Except PyErr β) :
    (Except.ok a >>= f) = f a := rfl

theorem charLead_self_append (n rest : List Char) : charLead n (n ++ rest) = true := by
  induction n with
  | nil => rfl
  | cons a as ih => simp [charLead, ih]

theorem charSub_append (n pre rest : List Char) : charSub n (pre ++ (n ++ rest)) = true := by
  induction pre with
  | nil =>
    simp only [List.nil_append]
    cases hn : n ++ rest with
    | nil =>
      rcases List.append_eq_nil.mp hn with ⟨h1, _⟩
      simp [charSub, h1]
    | cons h t =>
      rw [charSub, ← hn, charLead_self_append]
      simp
  | cons p ps ih =>
    simp [charSub, ih]

theorem strHasSub_of_contains (hay x : String) (h : containsVerbatim hay x) :
    strHasSub hay x = true := by
  rcases h with ⟨pre, suf, hdata⟩
  rw [strHasSub, hdata, List.append_assoc]
  exact charSub_append x.data pre suf

theorem lookup_any {fs : List (String × Json)} {k : String} {v : Json}
    (h : fs.lookup k = some v) : fs.any (fun p => p.1 == k) = true := by
  induction fs with
  | nil => simp [List.lookup] at h
  | cons p ps ih =>
    rw [List.lookup] at h
    cases hk : (k == p.1) with
    | true => simp [List.any, BEq.symm hk]
    | false =>
      rw [hk] at h
      simp [List.any, ih h]

theorem lookup_nonempty {fs : List (String × Json)} {k : String} {v : Json}
    (h : fs.lookup k = some v) : fs.isEmpty = false := by
  cases fs with
  | nil => simp [List.lookup] at h
  | cons p ps => rfl

theorem subscriptStr_error {j : Json} {k : String} {e : PyErr}
    (h : subscriptStr j k = .error e) : e = .keyError ∨ e = .typeError := by
  cases j <;> simp [subscriptStr] at h <;> try (exact Or.inr h.symm)
  next fs =>
    cases hl : fs.lookup k <;> rw [hl] at h <;> simp at h
    exact Or.inl h.symm

theorem subscriptNat_error {j : Json} {i : Nat} {e : PyErr}
    (h : subscriptNat j i = .error e) :
    e = .keyError ∨ e = .indexError ∨ e = .typeError := by
  cases j <;> simp [subscriptNat] at h
  case null => exact Or.inr (Or.inr h.symm)
  case bool => exact Or.inr (Or.inr h.symm)
  case num => exact Or.inr (Or.inr h.symm)
  case str s =>
    cases hl : s.data[i]? <;> rw [hl] at h <;> simp at h
    exact Or.inr (Or.inl h.symm)
  case arr xs =>
    cases hl : xs[i]? <;> rw [hl] at h <;> simp at h
    exact Or.inr (Or.inl h.symm)
  case obj => exact Or.inl h.symm

theorem tryBlock_error_class (post : PostRequest → HttpOutcome)
    (loads : String → Option Json) (req : PostRequest) {e : PyErr}
    (h : tryBlock post loads req = .error e) :
    isCaught e = true ∨ e = .indexError ∨ e = .typeError := by
  unfold tryBlock at h
  cases hp : post req <;> rw [hp] at h
  case netError => injection h with he; subst he; simp [isCaught]
  case badStatus => injection h with he; subst he; simp [isCaught]
  case badJson => injection h with he; subst he; simp [isCaught]
  case ok rd =>
    dsimp only at h
    cases h1 : subscriptStr rd "choices" with
    | error e1 =>
      rw [h1, except_bind_err] at h
      injection h with he; subst he
      rcases subscriptStr_error h1 with h' | h' <;> subst h' <;> simp [isCaught]
    | ok choices =>
      rw [h1, except_bind_ok] at h
      cases h2 : subscriptNat choices 0 with
      | error e2 =>
        rw [h2, except_bind_err] at h
        injection h with he; subst he
        rcases subscriptNat_error h2 with h' | h' | h' <;> subst h' <;> simp [isCaught]
      | ok first =>
        rw [h2, except_bind_ok] at h
        cases h3 : subscriptStr first "message" with
        | error e3 =>
          rw [h3, except_bind_err] at h
          injection h with he; subst he
          rcases subscriptStr_error h3 with h' | h' <;> subst h' <;> simp [isCaught]
        | ok message =>
          rw [h3, except_bind_ok] at h
          cases h4 : subscriptStr message "content" with
          | error e4 =>
            rw [h4, except_bind_err] at h
            injection h with he; subst he
            rcases subscriptStr_error h4 with h' | h' <;> subst h' <;> simp [isCaught]
          | ok content =>
            rw [h4, except_bind_ok] at h
            cases content <;> dsimp only at h <;>
              try (injection h with he; subst he; simp [isCaught])
            next s =>
              cases hl : loads s <;> rw [hl] at h
              · injection h with he; subst he; simp [isCaught]
              · exact absurd h (by simp)

/-! ## C1 -/

/-- C1 (as stated) is false: with the credential set, an upstream reply whose
envelope decodes to `{"choices": []}` makes
`response_data["choices"][0]` raise an uncaught `IndexError`, which escapes
`generate_ai_plan` instead of being converted to `None`. -/
theorem C1_counterexample :
    (generate_ai_plan (some "k")
      (fun _ => .ok (.obj [("choices", .arr [])])) (fun _ => none)
      (.str "Data Scientist") (.str "Beginner") (.str "Python, SQL") (.str "10")).1
      = .error .indexError := by rfl

theorem generate_ai_plan_caught_none (apiKey : Option String)
    (post : PostRequest → HttpOutcome) (loads : String → Option Json)
    (g s k h : Json) (e : PyErr)
    (htb : tryBlock post loads (mkRequest (apiKey.getD "") g s k h) = .error e)
    (hc : isCaught e = true) :
    (generate_ai_plan apiKey post loads g s k h).1 = .ok none := by
  rw [generate_ai_plan]
  cases hk : apiKeyMissing apiKey with
  | true => simp [hk]
  | false => simp [hk, htb, hc]

/-- C1 amended: `generate_ai_plan` honours the sentinel contract for every
handled outcome — it returns `(ok none, no call)` on a missing credential,
returns `None` when the HTTP call raises (network error or a non-2xx status
via `raise_for_status`) or when the response body is not valid JSON, returns
`None` whenever the try block raises any handled class (`RequestException`,
`json.JSONDecodeError`, `KeyError` — i.e. a missing response field or
unparsable plan text), and returns the parsed structure whenever the try
block succeeds with the credential set.  The only exceptions that can escape
the boundary are the unhandled `IndexError` / `TypeError`, raised by
structurally unexpected envelopes (empty `choices` list, non-dict nodes,
non-string `content`). -/
theorem C1_amended (apiKey : Option String) (post : PostRequest → HttpOutcome)
    (loads : String → Option Json) (g s k h : Json) :
    (apiKeyMissing apiKey = true →
      generate_ai_plan apiKey post loads g s k h = (.ok none, [])) ∧
    (post (mkRequest (apiKey.getD "") g s k h) = .netError →
      (generate_ai_plan apiKey post loads g s k h).1 = .ok none) ∧
    (post (mkRequest (apiKey.getD "") g s k h) = .badStatus →
      (generate_ai_plan apiKey post loads g s k h).1 = .ok none) ∧
    (post (mkRequest (apiKey.getD "") g s k h) = .badJson →
      (generate_ai_plan apiKey post loads g s k h).1 = .ok none) ∧
    (∀ e, tryBlock post loads (mkRequest (apiKey.getD "") g s k h) = .error e →
      isCaught e = true →
      (generate_ai_plan apiKey post loads g s k h).1 = .ok none) ∧
    (∀ p, apiKeyMissing apiKey = false →
      tryBlock post loads (mkRequest (apiKey.getD "") g s k h) = .ok p →
      (generate_ai_plan apiKey post loads g s k h).1 = .ok (some p)) ∧
    (∀ e, (generate_ai_plan apiKey post loads g s k h).1 = .error e →
      e = .indexError ∨ e = .typeError) := by
  refine ⟨?_, ?_, ?_, ?_, ?_, ?_, ?_⟩
  · intro hk
    simp [generate_ai_plan, hk]
  · intro hp
    exact generate_ai_plan_caught_none apiKey post loads g s k h
      PyErr.requestException (by unfold tryBlock; rw [hp]) rfl
  · intro hp
    exact generate_ai_plan_caught_none apiKey post loads g s k h
      PyErr.requestException (by unfold tryBlock; rw [hp]) rfl
  · intro hp
    exact generate_ai_plan_caught_none apiKey post loads g s k h
      PyErr.jsonDecodeError (by unfold tryBlock; rw [hp]) rfl
  · intro e htb hc
    exact generate_ai_plan_caught_none apiKey post loads g s k h e htb hc
  · intro p hk htb
    rw [generate_ai_plan]
    simp [hk, htb]
  · intro e her
    rw [generate_ai_plan] at her
    cases hk : apiKeyMissing apiKey with
    | true => rw [hk] at her; simp at her
    | false =>
      rw [hk] at her
      simp only [Bool.false_eq_true, if_false] at her
      cases htb : tryBlock post loads (mkRequest (apiKey.getD "") g s k h) with
      | ok p => rw [htb] at her; simp at her
      | error e2 =>
        rw [htb] at her
        dsimp only at her
        cases hc : isCaught e2 with
        | true => rw [hc] at her; simp at her
        | false =>
          rw [hc] at her
          simp only [Bool.false_eq_true, if_false] at her
          simp at her
          subst her
          rcases tryBlock_error_class post loads _ htb with h' | h' | h'
          · rw [h'] at hc; exact Bool.noConfusion hc
          · exact Or.inl h'
          · exact Or.inr h'

/-- Witness for C1: concrete environments exercising each clause of the
amended theorem — missing credential, network error, non-2xx status,
malformed response body, a missing response field (`KeyError` from an
envelope without `choices`), and a successful parse returned unchanged. -/
theorem C1_amended_witness :
    generate_ai_plan none (fun _ => HttpOutcome.netError) (fun _ => none)
        (.str "a") (.str "b") (.str "c") (.str "d") = (.ok none, []) ∧
    (generate_ai_plan (some "k") (fun _ => HttpOutcome.netError) (fun _ => none)
        (.str "a") (.str "b") (.str "c") (.str "d")).1 = .ok none ∧
    (generate_ai_plan (some "k") (fun _ => HttpOutcome.badStatus) (fun _ => none)
        (.str "a") (.str "b") (.str "c") (.str "d")).1 = .ok none ∧
    (generate_ai_plan (some "k") (fun _ => HttpOutcome.badJson) (fun _ => none)
        (.str "a") (.str "b") (.str "c") (.str "d")).1 = .ok none ∧
    (generate_ai_plan (some "k") (fun _ => HttpOutcome.ok (.obj [])) (fun _ => none)
        (.str "a") (.str "b") (.str "c") (.str "d")).1 = .ok none ∧
    (generate_ai_plan (some "k")
        (fun _ => HttpOutcome.ok (.obj [("choices",
          .arr [.obj [("message", .obj [("content", .str "Q")])]])]))
        (fun _ => some (.num 7))
        (.str "a") (.str "b") (.str "c") (.str "d")).1 = .ok (some (.num 7)) :=
  ⟨(C1_amended none _ _ _ _ _ _).1 rfl,
   (C1_amended (some "k") _ _ _ _ _ _).2.1 rfl,
   (C1_amended (some "k") _ _ _ _ _ _).2.2.1 rfl,
   (C1_amended (some "k") _ _ _ _ _ _).2.2.2.1 rfl,
   (C1_amended (some "k") _ _ _ _ _ _).2.2.2.2.1 PyErr.keyError rfl rfl,
   (C1_amended (some "k") _ _ _ _ _ _).2.2.2.2.2.1 (Json.num 7) rfl rfl⟩

/-! ## C2 -/

/-- C2 (as stated) is false: the handler only tests `"weekly_plan" in plan`,
never that the value is an array.  The Plan Client output
`{"weekly_plan": 5}` is answered with 200 and the plan itself although the
root field does not hold an array. -/
theorem C2_counterexample :
    planDecision (some (.obj [("weekly_plan", .num 5)]))
        = .ok ⟨200, .obj [("weekly_plan", .num 5)]⟩ ∧
      weekly_len (.obj [("weekly_plan", .num 5)]) = none := by
  exact ⟨rfl, rfl⟩

theorem planDecision_falsy {p : Json} (h : pyTruthy p = false) :
    planDecision (some p) = .ok ⟨500, errorBody failMsg⟩ := by
  simp [planDecision, h]

theorem planDecision_in_true {p : Json} (h : pyTruthy p = true)
    (h2 : pyInStr "weekly_plan" p = .ok true) :
    planDecision (some p) = .ok ⟨200, p⟩ := by
  simp [planDecision, h, h2]

theorem planDecision_in_false {p : Json} (h : pyTruthy p = true)
    (h2 : pyInStr "weekly_plan" p = .ok false) :
    planDecision (some p) = .ok ⟨500, errorBody failMsg⟩ := by
  simp [planDecision, h, h2]

theorem planDecision_in_err {p : Json} {e : PyErr} (h : pyTruthy p = true)
    (h2 : pyInStr "weekly_plan" p = .error e) :
    planDecision (some p) = .error e := by
  simp [planDecision, h, h2]

/-- C2 amended: the generate handler responds 200 with the plan iff the Plan
Client output is truthy (non-`None` and non-empty) and the Python membership
test `"weekly_plan" in plan` succeeds with `True` — the type of the value is
not inspected.  In every other case it responds 500 with the generic error
body, except that a truthy non-container plan makes the membership test raise
`TypeError`. -/
theorem C2_amended (plan : Option Json) :
    ((∃ j, plan = some j ∧ planDecision plan = .ok ⟨200, j⟩) ↔
      (∃ j, plan = some j ∧ pyTruthy j = true ∧ pyInStr "weekly_plan" j = .ok true)) ∧
    (planDecision plan = .ok ⟨500, errorBody failMsg⟩ ∨
      (∃ j, plan = some j ∧ planDecision plan = .ok ⟨200, j⟩) ∨
      ∃ e, planDecision plan = .error e) := by
  cases plan with
  | none => exact ⟨by simp [planDecision], Or.inl rfl⟩
  | some p =>
    cases ht : pyTruthy p with
    | false =>
      refine ⟨⟨?_, ?_⟩, Or.inl (planDecision_falsy ht)⟩
      · rintro ⟨j, hj, hd⟩
        injection hj with hj; subst hj
        rw [planDecision_falsy ht] at hd
        simp at hd
      · rintro ⟨j, hj, htr, _⟩
        injection hj with hj; subst hj
        rw [ht] at htr; cases htr
    | true =>
      cases hin : pyInStr "weekly_plan" p with
      | error e =>
        refine ⟨⟨?_, ?_⟩, Or.inr (Or.inr ⟨e, planDecision_in_err ht hin⟩)⟩
        · rintro ⟨j, hj, hd⟩
          injection hj with hj; subst hj
          rw [planDecision_in_err ht hin] at hd
          cases hd
        · rintro ⟨j, hj, _, hok⟩
          injection hj with hj; subst hj
          rw [hin] at hok; cases hok
      | ok b =>
        cases b with
        | true =>
          refine ⟨⟨?_, ?_⟩,
            Or.inr (Or.inl ⟨p, rfl, planDecision_in_true ht hin⟩)⟩
          · rintro ⟨j, hj, _⟩
            injection hj with hj; subst hj
            exact ⟨p, rfl, ht, hin⟩
          · rintro ⟨j, hj, _, _⟩
            injection hj with hj; subst hj
            exact ⟨p, rfl, planDecision_in_true ht hin⟩
        | false =>
          refine ⟨⟨?_, ?_⟩, Or.inl (planDecision_in_false ht hin)⟩
          · rintro ⟨j, hj, hd⟩
            injection hj with hj; subst hj
            rw [planDecision_in_false ht hin] at hd
            simp at hd
          · rintro ⟨j, hj, _, hok⟩
            injection hj with hj; subst hj
            rw [hin] at hok
            simp at hok

/-! ## C3 -/

/-- A `weekly_plan` entry of the shape the spec data model prescribes for a
`WeekEntry`: a dict carrying all four keys, `details` and `resources` holding
arrays. -/
def goodEntry : Json → Bool
  | .obj fs =>
    (fs.lookup "week").isSome && (fs.lookup "topic").isSome &&
      (match fs.lookup "details" with | some (.arr _) => true | _ => false) &&
      (match fs.lookup "resources" with | some (.arr _) => true | _ => false)
  | _ => false

/-- A plan of the shape the spec data model prescribes for a `LearningPlan`:
a dict whose `weekly_plan` field holds an array of well-shaped entries. -/
def goodPlan : Json → Bool
  | .obj fs =>
    match fs.lookup "weekly_plan" with
    | some (.arr entries) => entries.all goodEntry
    | _ => false
  | _ => false

theorem processWeek_good {e : Json} (h : goodEntry e = true) :
    ∃ fl, processWeek e = .ok fl := by
  cases e with
  | null => simp [goodEntry] at h
  | bool b => simp [goodEntry] at h
  | num n => simp [goodEntry] at h
  | str s => simp [goodEntry] at h
  | arr xs => simp [goodEntry] at h
  | obj fs =>
  simp only [goodEntry, Bool.and_eq_true] at h
  obtain ⟨⟨⟨hw, ht⟩, hd⟩, hr⟩ := h
  cases hlw : fs.lookup "week" with
  | none => rw [hlw] at hw; cases hw
  | some w =>
  cases hlt : fs.lookup "topic" with
  | none => rw [hlt] at ht; cases ht
  | some t =>
  cases hld : fs.lookup "details" with
  | none => rw [hld] at hd; cases hd
  | some dv =>
    cases dv <;> rw [hld] at hd <;> try cases hd
    next ds =>
    cases hlr : fs.lookup "resources" with
    | none => rw [hlr] at hr; cases hr
    | some rv =>
      cases rv <;> rw [hlr] at hr <;> try cases hr
      next rs =>
      exact ⟨[Flowable.para ("<b>" ++ pyStr w ++ ": " ++ pyStr t ++ "</b>") "h3",
              .spacer 1 12,
              .table ⟨"<b>Details</b>", "<b>Suggested Resources</b>",
                      ds.map bullet, rs.map bullet⟩,
              .spacer 1 24],
             by simp [processWeek, subscriptStr, hlw, hlt, hld, hlr, pyIter]⟩

theorem buildWeeks_good {entries : List Json} (h : entries.all goodEntry = true) :
    ∃ fls, buildWeeks entries = .ok fls := by
  induction entries with
  | nil => exact ⟨[], rfl⟩
  | cons e es ih =>
    rw [List.all_cons, Bool.and_eq_true] at h
    obtain ⟨fl, hfl⟩ := processWeek_good h.1
    obtain ⟨fls, hfls⟩ := ih h.2
    exact ⟨fl ++ fls, by simp [buildWeeks, hfl, hfls]⟩

/-- C3 (as stated) is false: the Plan Client output
`{"weekly_plan": [{}]}` is answered by the generate handler with 200 and the
plan itself, but passing that very plan to the download handler makes
`create_pdf` raise `KeyError` — no byte stream is produced. -/
theorem C3_counterexample :
    planDecision (some (.obj [("weekly_plan", .arr [.obj []])]))
        = .ok ⟨200, .obj [("weekly_plan", .arr [.obj []])]⟩ ∧
      download_pdf (some (.obj [("weekly_plan", .arr [.obj []])]))
        = .error .keyError := by
  exact ⟨rfl, rfl⟩

/-- C3 amended: the round trip holds for the plans of the documented data
model — a 200 response whose `weekly_plan` entries each carry the four keys
with array-valued `details`/`resources`, passed unmodified to the download
handler, yields a successful file response whose declared content type is the
PDF MIME type and whose document is non-empty.  A 200 plan with malformed
entries instead crashes the renderer (see the counterexample). -/
theorem C3_amended (plan : Json) (h : goodPlan plan = true) :
    planDecision (some plan) = .ok ⟨200, plan⟩ ∧
    ∃ doc, download_pdf (some plan)
        = .ok (.file doc "application/pdf" "attachment;filename=Career_Compass_Plan.pdf") ∧
      doc ≠ [] := by
  cases plan <;> simp [goodPlan] at h
  next fs =>
  cases hlk : fs.lookup "weekly_plan" with
  | none => rw [hlk] at h; cases h
  | some wv =>
    cases wv <;> rw [hlk] at h <;> try cases h
    next entries =>
    have htruthy : pyTruthy (.obj fs) = true := by
      simp [pyTruthy, lookup_nonempty hlk]
    have hin : pyInStr "weekly_plan" (.obj fs) = .ok true := by
      simp [pyInStr, lookup_any hlk]
    obtain ⟨fls, hfls⟩ := buildWeeks_good h
    refine ⟨planDecision_in_true htruthy hin, introStory ++ fls, ?_, by simp [introStory]⟩
    simp [download_pdf, htruthy, create_pdf, pyGetD, hlk, pyIter, hfls]

/-- Witness for C3: a concrete well-shaped plan round-trips into a non-empty
PDF file response. -/
theorem C3_witness :
    goodPlan (.obj [("weekly_plan", .arr [.obj
        [("week", .str "Week 1"), ("topic", .str "Python Basics"),
         ("details", .arr [.str "Install Python"]),
         ("resources", .arr [.str "python.org"])]])]) = true ∧
      planDecision (some (.obj [("weekly_plan", .arr [.obj
        [("week", .str "Week 1"), ("topic", .str "Python Basics"),
         ("details", .arr [.str "Install Python"]),
         ("resources", .arr [.str "python.org"])]])]))
        = .ok ⟨200, .obj [("weekly_plan", .arr [.obj
        [("week", .str "Week 1"), ("topic", .str "Python Basics"),
         ("details", .arr [.str "Install Python"]),
         ("resources", .arr [.str "python.org"])]])]⟩ :=
  ⟨by rfl, (C3_amended _ (by rfl)).1⟩

/-! ## C4 -/

/-- A `weekly_plan` entry that is typed like a (possibly incomplete)
`WeekEntry`: a dict whose `details` and `resources` values, where present,
hold arrays.  Keys may be missing. -/
def entryShape : Json → Bool
  | .obj fs =>
    (match fs.lookup "details" with
     | some (.arr _) => true | none => true | _ => false) &&
    (match fs.lookup "resources" with
     | some (.arr _) => true | none => true | _ => false)
  | _ => false

/-- Whether an entry dict lacks at least one of the four required keys
`week`, `topic`, `details`, `resources`. -/
def entryMissingKey : Json → Bool
  | .obj fs =>
    !((fs.lookup "week").isSome && (fs.lookup "topic").isSome &&
      (fs.lookup "details").isSome && (fs.lookup "resources").isSome)
  | _ => true

theorem goodEntry_of_shape {e : Json} (hs : entryShape e = true)
    (hm : entryMissingKey e = false) : goodEntry e = true := by
  cases e with
  | obj fs =>
    simp only [entryShape, Bool.and_eq_true] at hs
    simp only [entryMissingKey, Bool.not_eq_false', Bool.not_eq_true,
      Bool.and_eq_true] at hm
    obtain ⟨⟨⟨hw, ht⟩, hd⟩, hr⟩ := hm
    simp only [goodEntry, Bool.and_eq_true]
    refine ⟨⟨⟨hw, ht⟩, ?_⟩, ?_⟩
    · cases hld : fs.lookup "details" with
      | none => rw [hld] at hd; cases hd
      | some dv => cases dv <;> rw [hld] at hs <;> simp_all
    · cases hlr : fs.lookup "resources" with
      | none => rw [hlr] at hr; cases hr
      | some rv => cases rv <;> rw [hlr] at hs <;> simp_all
  | null => simp [entryShape] at hs
  | bool b => simp [entryShape] at hs
  | num n => simp [entryShape] at hs
  | str s => simp [entryShape] at hs
  | arr xs => simp [entryShape] at hs

theorem processWeek_missing {e : Json} (hs : entryShape e = true)
    (hm : entryMissingKey e = true) : processWeek e = .error .keyError := by
  cases e with
  | obj fs =>
    simp only [entryShape, Bool.and_eq_true] at hs
    cases hlw : fs.lookup "week" with
    | none => simp [processWeek, subscriptStr, hlw]
    | some w =>
    cases hlt : fs.lookup "topic" with
    | none => simp [processWeek, subscriptStr, hlw, hlt]
    | some t =>
    cases hld : fs.lookup "details" with
    | none => simp [processWeek, subscriptStr, hlw, hlt, hld]
    | some dv =>
    cases hlr : fs.lookup "resources" with
    | none =>
      cases dv with
      | arr ds =>
        simp only [processWeek, subscriptStr, hlw, hlt, hld, hlr, pyIter,
          except_bind_ok, except_bind_err]
      | null => rw [hld] at hs; simp at hs
      | bool b => rw [hld] at hs; simp at hs
      | num n => rw [hld] at hs; simp at hs
      | str s => rw [hld] at hs; simp at hs
      | obj fs2 => rw [hld] at hs; simp at hs
    | some rv =>
      rw [entryMissingKey, hlw, hlt, hld, hlr] at hm
      simp at hm
  | null => simp [entryShape] at hs
  | bool b => simp [entryShape] at hs
  | num n => simp [entryShape] at hs
  | str s => simp [entryShape] at hs
  | arr xs => simp [entryShape] at hs

theorem buildWeeks_missing {entries : List Json}
    (hshape : entries.all entryShape = true)
    (hmiss : entries.any entryMissingKey = true) :
    buildWeeks entries = .error .keyError := by
  induction entries with
  | nil => cases hmiss
  | cons e es ih =>
    rw [List.all_cons, Bool.and_eq_true] at hshape
    cases hme : entryMissingKey e with
    | true => simp [buildWeeks, processWeek_missing hshape.1 hme]
    | false =>
      have hge := goodEntry_of_shape hshape.1 hme
      obtain ⟨fl, hfl⟩ := processWeek_good hge
      rw [List.any_cons, hme] at hmiss
      simp only [Bool.false_or] at hmiss
      simp [buildWeeks, hfl, ih hshape.2 hmiss]

/-- C4: when the `weekly_plan` array of a plan holds `WeekEntry`-typed
entries of which at least one lacks one of the keys `week`, `topic`,
`details` or `resources`, `create_pdf` raises `KeyError` (the computation
yields no flowable list, hence no byte stream is built), and in particular a
missing `resources` key is never replaced by an empty list. -/
theorem C4_missing_key_aborts (fs : List (String × Json)) (entries : List Json)
    (hlk : fs.lookup "weekly_plan" = some (.arr entries))
    (hshape : entries.all entryShape = true)
    (hmiss : entries.any entryMissingKey = true) :
    create_pdf (.obj fs) = .error .keyError := by
  simp [create_pdf, pyGetD, hlk, pyIter, buildWeeks_missing hshape hmiss]

/-- Witness for C4: the concrete plan whose sole entry has `week`, `topic`
and `details` but no `resources` makes `create_pdf` raise `KeyError`. -/
theorem C4_missing_key_aborts_witness :
    [("weekly_plan", Json.arr [Json.obj
        [("week", .str "Week 1"), ("topic", .str "T"),
         ("details", .arr [.str "d"])]])].lookup "weekly_plan"
      = some (.arr [Json.obj [("week", .str "Week 1"), ("topic", .str "T"),
         ("details", .arr [.str "d"])]]) ∧
    [Json.obj [("week", .str "Week 1"), ("topic", .str "T"),
         ("details", .arr [.str "d"])]].all entryShape = true ∧
    [Json.obj [("week", .str "Week 1"), ("topic", .str "T"),
         ("details", .arr [.str "d"])]].any entryMissingKey = true ∧
    create_pdf (.obj [("weekly_plan", Json.arr [Json.obj
        [("week", .str "Week 1"), ("topic", .str "T"),
         ("details", .arr [.str "d"])]])]) = .error .keyError :=
  ⟨rfl, rfl, rfl, C4_missing_key_aborts _ _ rfl rfl rfl⟩

/-! ## C5 -/

/-- C5 (as stated) is false in its "which-field" part: a body lacking `goal`
is answered with 400, but the message is the fixed string
"Missing required fields", which does not contain the name of the missing
field. -/
theorem C5_counterexample :
    (generate (some "k") (fun _ => .netError) (fun _ => none)
        (some (.obj [("skillLevel", .str "Beginner"), ("skills", .str "Python, SQL"),
                     ("hours", .str "10")]))).1
        = .ok ⟨400, errorBody "Missing required fields"⟩ ∧
      ¬ containsVerbatim "Missing required fields" "goal" := by
  refine ⟨rfl, fun hc => ?_⟩
  have := strHasSub_of_contains _ _ hc
  rw [show strHasSub "Missing required fields" "goal" = false from rfl] at this
  cases this

/-- C5 amended: with the API key configured, a truthy dict body from which
any one of the four required fields (`goal`, `skillLevel`, `skills`, `hours`)
is absent is answered with status 400 and the fixed generic body
`{"error": "Missing required fields"}` (no field-level detail), with no
upstream call. -/
theorem C5_amended (apiKey : Option String) (post : PostRequest → HttpOutcome)
    (loads : String → Option Json) (fs : List (String × Json))
    (hk : apiKeyMissing apiKey = false) (hne : fs.isEmpty = false)
    (hmiss : fs.lookup "goal" = none ∨ fs.lookup "skillLevel" = none ∨
             fs.lookup "skills" = none ∨ fs.lookup "hours" = none) :
    generate apiKey post loads (some (.obj fs))
      = (.ok ⟨400, errorBody "Missing required fields"⟩, []) := by
  have htr : pyTruthy (.obj fs) = true := by simp [pyTruthy, hne]
  rw [generate, hk]
  simp only [Bool.false_eq_true, if_false, htr, if_true]
  rcases hmiss with hm | hm | hm | hm <;>
    simp [generateBody, pyGet1, hm, pyTruthy]

/-- Witness for the amended C5 theorem at a concrete environment and body
(missing `hours`). -/
theorem C5_amended_witness :
    apiKeyMissing (some "k") = false ∧
    [("goal", Json.str "Data Scientist"), ("skillLevel", Json.str "Beginner"),
     ("skills", Json.str "SQL")].isEmpty = false ∧
    generate (some "k") (fun _ => .netError) (fun _ => none)
        (some (.obj [("goal", Json.str "Data Scientist"),
                     ("skillLevel", Json.str "Beginner"),
                     ("skills", Json.str "SQL")]))
      = (.ok ⟨400, errorBody "Missing required fields"⟩, []) :=
  ⟨rfl, rfl,
    C5_amended _ _ _ _ rfl rfl (Or.inr (Or.inr (Or.inr rfl)))⟩

/-! ## C6 -/

/-- C6 (as stated) is false: the handler never checks the length of
`weekly_plan`.  With the credential set and the upstream replying with a
well-formed envelope whose plan text decodes to `{"weekly_plan": []}`, the
handler responds 200 with that plan, whose `weekly_plan` holds 0 entries,
not 8. -/
theorem C6_counterexample :
    (generate (some "k")
        (fun _ => .ok (.obj [("choices",
          .arr [.obj [("message", .obj [("content", .str "P")])]])]))
        (fun s => if s == "P" then some (.obj [("weekly_plan", .arr [])]) else none)
        (some (.obj [("goal", .str "Data Scientist"), ("skillLevel", .str "Beginner"),
                     ("skills", .str "Python, SQL"), ("hours", .str "10")]))).1
        = .ok ⟨200, .obj [("weekly_plan", .arr [])]⟩ ∧
      weekly_len (.obj [("weekly_plan", .arr [])]) = some 0 := by
  exact ⟨rfl, rfl⟩

/-- C6 amended: a 200 response carries the Plan Client output unchanged —
the handler enforces no length (the 8-week shape is only requested in the
prompt), so `weekly_plan` holds exactly whatever number of entries the
upstream returned. -/
theorem C6_amended (plan : Option Json) (j : Json)
    (h : planDecision plan = .ok ⟨200, j⟩) : plan = some j := by
  cases plan with
  | none =>
    rw [planDecision] at h
    injection h with h
    exact absurd (congrArg HttpResp.status h) (by simp)
  | some p =>
    cases ht : pyTruthy p with
    | false =>
      rw [planDecision_falsy ht] at h
      injection h with h
      exact absurd (congrArg HttpResp.status h) (by simp)
    | true =>
      cases hin : pyInStr "weekly_plan" p with
      | error e => rw [planDecision_in_err ht hin] at h; cases h
      | ok b =>
        cases b with
        | true =>
          rw [planDecision_in_true ht hin] at h
          injection h with h
          have hb : p = j := congrArg HttpResp.body h
          rw [hb]
        | false =>
          rw [planDecision_in_false ht hin] at h
          injection h with h
          exact absurd (congrArg HttpResp.status h) (by simp)

/-- Witness for the amended C6 theorem at a concrete 200 response. -/
theorem C6_amended_witness :
    planDecision (some (.obj [("weekly_plan", .arr [.null])]))
        = .ok ⟨200, .obj [("weekly_plan", .arr [.null])]⟩ ∧
      (some (.obj [("weekly_plan", .arr [.null])]) : Option Json)
        = some (.obj [("weekly_plan", .arr [.null])]) :=
  ⟨rfl, C6_amended _ _ rfl⟩

/-! ## C7 -/

/-- C7: on a dict plan whose `weekly_plan` is the empty array — and likewise
when the key is absent, since `plan_data.get("weekly_plan", [])` defaults to
the empty list — `create_pdf` succeeds, and the resulting story is exactly
the title block and the fixed introductory paragraph with their spacers: no
week tables, no error. -/
theorem C7_empty_plan (fs : List (String × Json))
    (h : fs.lookup "weekly_plan" = some (.arr []) ∨ fs.lookup "weekly_plan" = none) :
    create_pdf (.obj fs) = .ok introStory ∧
      introStory.all (fun fl => !fl.isTable) = true := by
  refine ⟨?_, rfl⟩
  rcases h with h | h <;> simp [create_pdf, pyGetD, h, pyIter, buildWeeks]

/-- Witness for C7 at a concrete empty plan. -/
theorem C7_empty_plan_witness :
    [("weekly_plan", Json.arr [])].lookup "weekly_plan" = some (Json.arr []) ∧
    create_pdf (.obj [("weekly_plan", Json.arr [])]) = .ok introStory :=
  ⟨rfl, (C7_empty_plan [("weekly_plan", Json.arr [])] (Or.inl rfl)).1⟩

/-! ## C8 -/

/-- C8: with the API credential environment variable absent, the generate
handler responds 500 with the configuration-error body for every request
body and performs no upstream call. -/
theorem C8_no_key_500 (post : PostRequest → HttpOutcome)
    (loads : String → Option Json) (body : Option Json) :
    generate none post loads body
      = (.ok ⟨500, errorBody "API key is not configured on the server."⟩, []) := rfl

/-! ## C9 -/

/-- C9: for every 4-tuple of string inputs and any environment in which the
credential is set (without it the prompt is never built and no call happens),
`generate_ai_plan` performs exactly one outbound call — whose user message is
`user_prompt` — and that user prompt contains each of the four input values
verbatim as substrings. -/
theorem C9_prompt_verbatim_one_call (key : String) (post : PostRequest → HttpOutcome)
    (loads : String → Option Json) (g s k h : String)
    (hk : apiKeyMissing (some key) = false) :
    (generate_ai_plan (some key) post loads (.str g) (.str s) (.str k) (.str h)).2
        = [mkRequest key (.str g) (.str s) (.str k) (.str h)] ∧
      containsVerbatim (user_prompt (.str g) (.str s) (.str k) (.str h)) g ∧
      containsVerbatim (user_prompt (.str g) (.str s) (.str k) (.str h)) s ∧
      containsVerbatim (user_prompt (.str g) (.str s) (.str k) (.str h)) k ∧
      containsVerbatim (user_prompt (.str g) (.str s) (.str k) (.str h)) h := by
  refine ⟨?_, ?_, ?_, ?_, ?_⟩
  · rw [generate_ai_plan, hk]
    simp only [Bool.false_eq_true, if_false, Option.getD]
    cases htb : tryBlock post loads (mkRequest key (.str g) (.str s) (.str k) (.str h)) with
    | ok p => rfl
    | error e => cases hie : isCaught e <;> simp [hie]
  · refine ⟨upSeg0.data, (upSeg1 ++ s ++ upSeg2 ++ k ++ upSeg3 ++ h ++ upSeg4).data, ?_⟩
    simp [user_prompt, pyStr, String.data_append, List.append_assoc]
  · refine ⟨(upSeg0 ++ g ++ upSeg1).data, (upSeg2 ++ k ++ upSeg3 ++ h ++ upSeg4).data, ?_⟩
    simp [user_prompt, pyStr, String.data_append, List.append_assoc]
  · refine ⟨(upSeg0 ++ g ++ upSeg1 ++ s ++ upSeg2).data, (upSeg3 ++ h ++ upSeg4).data, ?_⟩
    simp [user_prompt, pyStr, String.data_append, List.append_assoc]
  · refine ⟨(upSeg0 ++ g ++ upSeg1 ++ s ++ upSeg2 ++ k ++ upSeg3).data, upSeg4.data, ?_⟩
    simp [user_prompt, pyStr, String.data_append, List.append_assoc]

/-- Witness for C9 at the concrete scenario inputs of the spec. -/
theorem C9_prompt_verbatim_one_call_witness :
    apiKeyMissing (some "k") = false ∧
    (generate_ai_plan (some "k") (fun _ => .netError) (fun _ => none)
        (.str "Data Scientist") (.str "Beginner") (.str "Python, SQL") (.str "10")).2
      = [mkRequest "k" (.str "Data Scientist") (.str "Beginner")
          (.str "Python, SQL") (.str "10")] ∧
    containsVerbatim (user_prompt (.str "Data Scientist") (.str "Beginner")
        (.str "Python, SQL") (.str "10")) "Data Scientist" :=
  ⟨rfl,
    (C9_prompt_verbatim_one_call "k" (fun _ => .netError) (fun _ => none)
      "Data Scientist" "Beginner" "Python, SQL" "10" rfl).1,
    (C9_prompt_verbatim_one_call "k" (fun _ => .netError) (fun _ => none)
      "Data Scientist" "Beginner" "Python, SQL" "10" rfl).2.1⟩

/-! ## C10 -/

/-- C10: with the API key configured, a dict body carrying all four required
fields where at least one value is falsy (empty string, zero, `None`, empty
list, ...) is answered exactly like a missing field: status 400 with the
generic body, and the Plan Client is never invoked (no outbound call). -/
theorem C10_falsy_fields (apiKey : Option String) (post : PostRequest → HttpOutcome)
    (loads : String → Option Json) (fs : List (String × Json)) (vG vS vK vH : Json)
    (hk : apiKeyMissing apiKey = false)
    (h1 : fs.lookup "goal" = some vG) (h2 : fs.lookup "skillLevel" = some vS)
    (h3 : fs.lookup "skills" = some vK) (h4 : fs.lookup "hours" = some vH)
    (hfalsy : pyTruthy vG = false ∨ pyTruthy vS = false ∨
              pyTruthy vK = false ∨ pyTruthy vH = false) :
    generate apiKey post loads (some (.obj fs))
      = (.ok ⟨400, errorBody "Missing required fields"⟩, []) := by
  have htr : pyTruthy (.obj fs) = true := by simp [pyTruthy, lookup_nonempty h1]
  rw [generate, hk]
  simp only [Bool.false_eq_true, if_false, htr, if_true]
  rcases hfalsy with hf | hf | hf | hf <;>
    simp [generateBody, pyGet1, h1, h2, h3, h4, hf]

/-- Witness for C10 at a concrete body whose `goal` is the empty string. -/
theorem C10_falsy_fields_witness :
    pyTruthy (Json.str "") = false ∧
    generate (some "k") (fun _ => .netError) (fun _ => none)
        (some (.obj [("goal", Json.str ""), ("skillLevel", Json.str "Beginner"),
                     ("skills", Json.str "SQL"), ("hours", Json.num 10)]))
      = (.ok ⟨400, errorBody "Missing required fields"⟩, []) :=
  ⟨rfl,
    C10_falsy_fields (some "k") (fun _ => .netError) (fun _ => none)
      [("goal", Json.str ""), ("skillLevel", Json.str "Beginner"),
       ("skills", Json.str "SQL"), ("hours", Json.num 10)]
      (Json.str "") (Json.str "Beginner") (Json.str "SQL") (Json.num 10)
      rfl rfl rfl rfl rfl (Or.inl rfl)⟩

end CareerCompass
